import Mathlib

/-!
Shallow embedding of the core of `rnsh` (source file `src/rnsh/rnsh.py`), a remote
shell over the Reticulum overlay network, together with theorems settling the
frozen claims about its specification.

Conventions of the embedding:

* Python `bytes` values that carry raw data are modelled as `List Nat`.
* Python `None` / nullable fields become `Option`.
* `base64.b64encode`/`b64decode` form a bijection between byte strings and the
  base64 alphabet; the model wraps the encoded bytes in the structure `B64`,
  identifying a base64 string with the byte string it encodes.  The encoded
  string is empty exactly when the data is empty, which is the only fact about
  base64 the code relies on besides the round trip.
* Wall-clock values (`time.time()`, `link.rtt`) are modelled as `Rat`.
* The stateful parts (the session registry, a `ProcessState`, the retry timer)
  become explicit state passed through pure functions.
-/

namespace Rnsh

/-! ## Byte strings, base64 and Python truthiness idioms -/

/-- Raw byte strings (Python `bytes`), one `Nat` per byte. -/
abbrev Bytes := List Nat

/-- Link ids (`link.link_id`), opaque bytes from the transport; modelled as `Nat`. -/
abbrev Tag := Nat

/-- A base64-encoded byte string: `B64.mk d` stands for `base64.b64encode(d)`.
Encoding is injective and decoding the encoding returns the data, so the model
identifies the encoded string with the data it carries. -/
structure B64 where
  data : Bytes
deriving DecidableEq, Repr

/-- `base64.b64encode`. -/
def b64encode (d : Bytes) : B64 := ⟨d⟩

/-- `base64.b64decode`. -/
def b64decode (b : B64) : Bytes := b.data

/-- Python `x or True` on a nullable boolean field: a falsy value (`None` or
`False`) yields the right operand `True`; a truthy value is returned itself.
(Used at `rnsh.py:669`, `running = response[...] or True`.) -/
def pyOrTrue : Option Bool → Bool
  | some b => if b then b else true
  | none => true

/-- Python `x or 0` on a nullable integer field: falsy values (`None`, `0`)
yield `0`; other values are returned themselves (`rnsh.py:671`). -/
def pyOrZero : Option Int → Int
  | some n => if n = 0 then 0 else n
  | none => 0

/-- Python `return_code or 255` (`rnsh.py:694`): falsy values (`None` and,
crucially, the integer `0`) yield `255`; other values are returned themselves. -/
def pyOr255 : Option Int → Int
  | some n => if n = 0 then 255 else n
  | none => 255

/-! ## Session registry (`ProcessState` classmethods, `rnsh.py:189-211`)

The registry is the class attribute `_processes: [(any, ProcessState)]`, a list
of `(tag, process_state)` 2-tuples guarded by a reentrant lock.  The lock makes
each operation atomic; the model therefore treats each operation as one pure
function on the list.  The element type is kept generic (`σ`), matching the
untyped Python list. -/

/-- Python `list.remove(x)`: delete the first element that compares equal to
`x`; `none` models the `ValueError` raised when no element matches. -/
def removeFirst (p : α → Bool) : List α → Option (List α)
  | [] => none
  | x :: xs => if p x then some xs else (removeFirst p xs).map (x :: ·)

/-- The comparison performed by `cls._processes.remove(tag)` in `clear_tag`
(`rnsh.py:209`): each stored element is a 2-tuple `(tag, process_state)` while
the argument is the bare tag (a `bytes` link id).  Python's default equality
between a tuple and a non-tuple object is `False`, so the comparison can never
succeed. -/
def entry_matches_tag (_e : Tag × σ) (_t : Tag) : Bool := false

/-- `ProcessState.clear_tag` (`rnsh.py:205-211`): `_processes.remove(tag)`
inside `try: ... except: pass`, so the `ValueError` from a failed `remove` is
swallowed and the list is returned unchanged. -/
def clear_tag (procs : List (Tag × σ)) (t : Tag) : List (Tag × σ) :=
  match removeFirst (fun e => entry_matches_tag e t) procs with
  | some l => l
  | none => procs

/-- `ProcessState.put_for_tag` (`rnsh.py:198-202`): `clear_tag(tag)` followed by
`_processes.append((tag, ps))`. -/
def put_for_tag (procs : List (Tag × σ)) (t : Tag) (s : σ) : List (Tag × σ) :=
  clear_tag procs t ++ [(t, s)]

/-- `ProcessState.get_for_tag` (`rnsh.py:193-196`):
`next(map(lambda p: p[1], filter(lambda p: p[0] == tag, _processes)), None)` —
the second component of the first pair whose first component equals the tag. -/
def get_for_tag (procs : List (Tag × σ)) (t : Tag) : Option σ :=
  (procs.find? (fun e => e.1 == t)).map (fun e => e.2)

/-- The registry effect of `_listen_link_closed` (`rnsh.py:485-498`): after
terminating the process and completing the retry timer, the handler runs
`ProcessState.clear_tag(link.link_id)`. -/
def listen_link_closed (procs : List (Tag × σ)) (t : Tag) : List (Tag × σ) :=
  clear_tag procs t

/-! ## `ProcessState` instance state and the request handler -/

/-- The terminal-state slice `data[REQUEST_IDX_TIOS : REQUEST_IDX_VPIX+1]`
cached in `self._term_state` (`rnsh.py:347,351-352`): termios blob, rows, cols,
horizontal pixels, vertical pixels; any field may be null. -/
structure TermState where
  tios : Option Bytes
  rows : Option Int
  cols : Option Int
  hpix : Option Int
  vpix : Option Int
deriving DecidableEq, Repr

/-- The positional request tuple (`rnsh.py:308-314`): stdin (base64), TERM
name, termios blob, rows, cols, h-pixels, v-pixels; any field may be null. -/
structure Request where
  stdin : Option B64
  term : Option String
  tios : Option Bytes
  rows : Option Int
  cols : Option Int
  hpix : Option Int
  vpix : Option Int
deriving DecidableEq, Repr

/-- The slice `data[2:7]` taken by `process_request` (`rnsh.py:347`). -/
def Request.term_state (r : Request) : TermState :=
  ⟨r.tios, r.rows, r.cols, r.hpix, r.vpix⟩

/-- A value stored in the terminal-state slice, as the Python request fields
are: a termios blob, an integer, or `None`. -/
inductive PyVal
  | bytes (b : Bytes)
  | int (n : Int)
  | pynone
deriving DecidableEq, Repr

/-- Injection of a nullable integer field into slice values. -/
def PyVal.ofOptInt : Option Int → PyVal
  | some n => PyVal.int n
  | none => PyVal.pynone

/-- Injection of a nullable bytes field into slice values. -/
def PyVal.ofOptBytes : Option Bytes → PyVal
  | some b => PyVal.bytes b
  | none => PyVal.pynone

/-- The cached terminal-state slice as the Python list it is: `data[2:7]` of
the seven-field request tuple, i.e. the five elements
`[tios, rows, cols, hpix, vpix]` at indices 0 through 4. -/
def TermState.items (ts : TermState) : List PyVal :=
  [PyVal.ofOptBytes ts.tios, PyVal.ofOptInt ts.rows, PyVal.ofOptInt ts.cols,
   PyVal.ofOptInt ts.hpix, PyVal.ofOptInt ts.vpix]

/-- Python list indexing `l[i]`; `none` models the `IndexError` raised when
the index is out of range. -/
def pyIndex (l : List PyVal) (i : Nat) : Option PyVal := l.get? i

/-- `ProcessState.TERMSTATE_IDX_TERM` (`rnsh.py:291`).  The six `TERMSTATE_IDX`
constants are laid out for a six-element list that would begin with the TERM
name, although the slice cached as `self._term_state` has only the five
elements starting at the termios blob. -/
def TERMSTATE_IDX_TERM : Nat := 0

/-- `ProcessState.TERMSTATE_IDX_TIOS` (`rnsh.py:292`). -/
def TERMSTATE_IDX_TIOS : Nat := 1

/-- `ProcessState.TERMSTATE_IDX_ROWS` (`rnsh.py:293`). -/
def TERMSTATE_IDX_ROWS : Nat := 2

/-- `ProcessState.TERMSTATE_IDX_COLS` (`rnsh.py:294`). -/
def TERMSTATE_IDX_COLS : Nat := 3

/-- `ProcessState.TERMSTATE_IDX_HPIX` (`rnsh.py:295`). -/
def TERMSTATE_IDX_HPIX : Nat := 4

/-- `ProcessState.TERMSTATE_IDX_VPIX` (`rnsh.py:296`). -/
def TERMSTATE_IDX_VPIX : Nat := 5

/-- The positional response tuple (`rnsh.py:367-371`): running, return code,
ready bytes, stdout chunk (base64), server timestamp. -/
structure Response where
  running : Bool
  retcode : Option Int
  ready : Nat
  stdout : Option B64
  tmstamp : Rat
deriving DecidableEq, Repr

/-- `ProcessState.default_response` (`rnsh.py:373-383`):
`[False, None, 0, None, time.time()]`. -/
def default_response (now : Rat) : Response :=
  { running := false, retcode := none, ready := 0, stdout := none, tmstamp := now }

/-- The per-session state a request touches: whether the child still runs
(`self.process.running`), its captured return code (`self.return_code`), the
buffered stdout (`self._data_buffer`) and the cached terminal state
(`self._term_state`, initially `None`). -/
structure PState where
  running : Bool
  retcode : Option Int
  data_buffer : Bytes
  term_state : Option TermState
deriving DecidableEq, Repr

/-- `ProcessState.read` (`rnsh.py:274-280`), executed under the session lock:
`take = self._data_buffer[:count]; self._data_buffer = self._data_buffer[count:]`,
returning `take` together with the updated state. -/
def PState.read (ps : PState) (count : Nat) : Bytes × PState :=
  (ps.data_buffer.take count, { ps with data_buffer := ps.data_buffer.drop count })

/-- Side effects `process_request` issues to the child process. -/
inductive Effect
  | set_winsize (rows cols hpix vpix : PyVal)
  | write (data : Bytes)
deriving DecidableEq, Repr

/-- `ProcessState._update_winsz` (`rnsh.py:298-305`): calls
`self.process.set_winsize(ts[TERMSTATE_IDX_ROWS], ts[TERMSTATE_IDX_COLS],
ts[TERMSTATE_IDX_HPIX], ts[TERMSTATE_IDX_VPIX])` on the cached slice `ts`,
inside a `try` whose `except` logs and swallows any exception.  Python
evaluates the four index expressions before the call, so a `set_winsize`
effect is issued only when all four lookups succeed; an `IndexError` aborts
the call and is swallowed, producing no effect.  (The cached slice has five
elements, indices 0-4, while `TERMSTATE_IDX_VPIX = 5` — the constants assume a
six-element list starting with the TERM name — so `ts[5]` always raises and no
window-size update ever reaches the child.) -/
def update_winsz (ts : TermState) : List Effect :=
  match pyIndex ts.items TERMSTATE_IDX_ROWS, pyIndex ts.items TERMSTATE_IDX_COLS,
        pyIndex ts.items TERMSTATE_IDX_HPIX, pyIndex ts.items TERMSTATE_IDX_VPIX with
  | some a, some b, some c, some d => [Effect.set_winsize a b c d]
  | _, _, _, _ => []

/-- Result of `process_request`: the response tuple, the updated session state,
and the ordered list of effects applied to the child. -/
structure PRResult where
  resp : Response
  state : PState
  effects : List Effect
deriving DecidableEq, Repr

/-- `ProcessState.process_request` (`rnsh.py:337-365`).  In source order:
start from `default_response()`; slice the terminal state; set `running`; if the
child runs, update the cached terminal state and call `_update_winsz` (modelled
above, including its swallowed `IndexError`) when the slice differs from
the cache, then base64-decode and `write` the stdin field when present and
non-empty (the emptiness test on the base64 string is equivalent to testing the
decoded bytes); record the return code; then, under the session lock, `read`
at most `read_size` bytes and sample `len(self._data_buffer)` into the
`ready_bytes` field; finally attach the base64 of the chunk when non-empty. -/
def PState.process_request (ps : PState) (data : Request) (read_size : Nat) (now : Rat) :
    PRResult :=
  let term_state := data.term_state
  let changed : Bool := ps.running && decide (some term_state ≠ ps.term_state)
  let eff_winsz : List Effect := if changed then update_winsz term_state else []
  let ps1 : PState := { ps with term_state := if changed then some term_state else ps.term_state }
  let eff_stdin : List Effect :=
    match data.stdin with
    | some b => if ps.running && decide (b64decode b ≠ []) then [Effect.write (b64decode b)] else []
    | none => []
  let rd := ps1.read read_size
  let resp : Response :=
    { default_response now with
        running := ps.running
        retcode := ps1.retcode
        ready := rd.2.data_buffer.length
        stdout := if rd.1.length > 0 then some (b64encode rd.1) else none }
  ⟨resp, rd.2, eff_winsz ++ eff_stdin⟩

/-- The read limit the listener passes to `process_request`
(`rnsh.py:527`): `link.MDU * 3 // 2`. -/
def listen_read_size (mdu : Nat) : Nat := mdu * 3 / 2

/-- `_listen_request` (`rnsh.py:510-538`).  The handler first completes any
pending retry-timer chain, then looks up the link; when no link with the
request's link id exists it raises (`rnsh.py:516-517`) *outside* the `try`
block, so that exception propagates to the transport.  Everything else —
decoding the TERM field, resolving or creating the session, and
`process_request` — runs inside `try`; its outcome is abstracted by the
`body` argument.  On `except`, the handler terminates the child when a session
was resolved and its child is running (`session_running = some true`; the
attempt's own failure is swallowed) and returns `ProcessState.default_response()`.
The returned pair carries the response and whether terminate was invoked. -/
def listen_request (link_found : Bool) (body : Except Unit Response)
    (session_running : Option Bool) (now : Rat) : Except Unit (Response × Bool) :=
  if link_found then
    match body with
    | Except.ok r => Except.ok (r, false)
    | Except.error _ => Except.ok (default_response now, decide (session_running = some true))
  else Except.error ()

/-! ## Notification retry engine (`_subproc_data_ready`, `rnsh.py:386-434`)

`rnsh.py` drives a `retry.RetryThread` whose module is not part of the sources
under review; its behaviour is modelled from the spec, §4.4. -/

/-- Modelled from the spec: the per-tag state of a retry chain kept by
`retry.RetryThread` (module `retry`, not under `src/`): "Per link-id: absent,
or present with try_count …"; `begin(try_limit=…, wait_delay=…)` starts a chain
whose attempts are counted against `try_limit`. -/
structure Chain where
  try_limit : Nat
  wait_delay : Rat
  tries : Nat
deriving DecidableEq, Repr

/-- Modelled from the spec: the retry timer's keyed state, "a single shared
timer thread serves all links.  Per-link state is keyed by link-id"
(spec §4.4); `retry.RetryThread` itself is not under `src/`. -/
structure RetryThread where
  entries : List (Tag × Chain)
deriving DecidableEq, Repr

/-- Modelled from the spec: `RetryThread.has_tag` — whether a retry chain
exists for the tag (used by the guard at `rnsh.py:427`). -/
def RetryThread.has_tag (rt : RetryThread) (t : Tag) : Bool :=
  rt.entries.any (fun e => e.1 == t)

/-- Modelled from the spec: `RetryThread.begin` — begin a chain for the tag
with the given try limit and wait delay.  (In the source the call passes
`tag=None` and the timer adopts the tag returned by the first `try_callback`,
which is `link.link_id`; the model passes that tag directly.) -/
def RetryThread.begin (rt : RetryThread) (t : Tag) (limit : Nat) (delay : Rat) : RetryThread :=
  ⟨(t, ⟨limit, delay, 0⟩) :: rt.entries⟩

/-- Modelled from the spec: `RetryThread.complete` — cancel the chain for a
tag (a cancellation point, spec §4.4). -/
def RetryThread.complete (rt : RetryThread) (t : Tag) : RetryThread :=
  ⟨rt.entries.filter (fun e => !(e.1 == t))⟩

/-- The wait delay computed at `rnsh.py:429`:
`max(link.rtt * 5 if link.rtt is not None else 1, 1)`. -/
def wait_delay_of (rtt : Option Rat) : Rat :=
  max (match rtt with | some r => r * 5 | none => 1) 1

/-- `_subproc_data_ready` (`rnsh.py:386-434`), restricted to its effect on the
retry timer: under the session lock, if the timer already has a chain for
`link.link_id` the call only logs ("Notification already pending"); otherwise
it begins a chain with `try_limit=15` and the rtt-scaled wait delay. -/
def subproc_data_ready (rt : RetryThread) (t : Tag) (rtt : Option Rat) : RetryThread :=
  if rt.has_tag t then rt else rt.begin t 15 (wait_delay_of rtt)

/-- Modelled from the spec: the outcome of one timer attempt of a chain
(spec §4.4).  `complete` covers every cancellation point — link no longer
ACTIVE, previous receipt DELIVERED, `complete(tag)` called — while `send`
is an attempt that transmits one notification packet and retries. -/
inductive Attempt
  | complete
  | send
deriving DecidableEq, Repr

/-- Modelled from the spec: the number of notification packets a chain sends
over a run of timer attempts.  Each `send` attempt transmits exactly one
packet (`rnsh.py:412-413`) and increments the try count; once the try count
reaches the try limit the chain is torn down without sending
("When try_count exceeds try_limit, tear down the link and cancel the chain",
spec §4.4). -/
def run_chain : Chain → List Attempt → Nat
  | _, [] => 0
  | c, a :: rest =>
    if c.try_limit ≤ c.tries then 0
    else
      match a with
      | Attempt.complete => 0
      | Attempt.send => 1 + run_chain { c with tries := c.tries + 1 } rest

/-! ## Client side: packet handler, `_execute` and `_initiate` -/

/-- `DATA_AVAIL_MSG` (`rnsh.py:60`). -/
def DATA_AVAIL_MSG : String := "data available"

/-- A Python `bytes` payload as seen by `str.encode`/`bytes.decode`: UTF-8
encoding is a bijection between strings and the valid UTF-8 byte sequences, so
a payload is modelled by its decode class — either `utf8 s` (the encoding of
`s`) or `invalid` (bytes on which `decode("utf-8")` raises). -/
inductive PyBytes
  | utf8 (s : String)
  | invalid
deriving DecidableEq, Repr

/-- `s.encode("utf-8")`. -/
def utf8_encode (s : String) : PyBytes := PyBytes.utf8 s

/-- `b.decode("utf-8")`; `none` models the `UnicodeDecodeError` raised on
invalid UTF-8. -/
def utf8_decode : PyBytes → Option String
  | PyBytes.utf8 s => some s
  | PyBytes.invalid => none

/-- The payload of every notification packet sent by the retry engine
(`rnsh.py:412`): `RNS.Packet(link, DATA_AVAIL_MSG.encode("utf-8"))`. -/
def notification_packet_payload : PyBytes := utf8_encode DATA_AVAIL_MSG

/-- What `_client_packet_handler` does with one packet. -/
inductive HandlerOutcome
  | set_event
  | logged
  | raised
deriving DecidableEq, Repr

/-- `_client_packet_handler` (`rnsh.py:560-567`):
`if message is not None and message.decode("utf-8") == DATA_AVAIL_MSG and
_new_data is not None: _new_data.set() else: log.error(...)`.  Short-circuit
evaluation: a `None` message is logged without decoding; decoding invalid
UTF-8 raises out of the handler; otherwise the event is set exactly when the
decoded string equals `DATA_AVAIL_MSG` and the event object exists. -/
def client_packet_handler (message : Option PyBytes) (new_data_exists : Bool) : HandlerOutcome :=
  match message with
  | none => HandlerOutcome.logged
  | some b =>
    match utf8_decode b with
    | none => HandlerOutcome.raised
    | some s =>
      if s = DATA_AVAIL_MSG ∧ new_data_exists = true then HandlerOutcome.set_event
      else HandlerOutcome.logged

/-- ASCII whitespace as skipped by CPython's `bytes.fromhex`. -/
def isAsciiWhitespace (c : Char) : Bool :=
  c == ' ' || c == '\t' || c == '\n' || c == '\r' || c == '\x0b' || c == '\x0c'

/-- Hexadecimal digit test. -/
def isHexDigit (c : Char) : Bool :=
  c.isDigit || (decide ('a' ≤ c) && decide (c ≤ 'f')) || (decide ('A' ≤ c) && decide (c ≤ 'F'))

/-- Value of a hexadecimal digit. -/
def hexVal (c : Char) : Nat :=
  if c.isDigit then c.toNat - 48
  else if decide ('a' ≤ c) && decide (c ≤ 'f') then c.toNat - 87
  else c.toNat - 55

/-- Core loop of Python `bytes.fromhex`: skip ASCII whitespace between byte
pairs; each byte needs two adjacent hexadecimal digits; anything else raises
`ValueError` (modelled as `none`). -/
def fromhexPairs : List Char → Option Bytes
  | [] => some []
  | c :: rest =>
    if isAsciiWhitespace c then fromhexPairs rest
    else
      match rest with
      | [] => none
      | d :: rest2 =>
        if isHexDigit c && isHexDigit d then
          (fromhexPairs rest2).map (fun bs => (hexVal c * 16 + hexVal d) :: bs)
        else none

/-- Python `bytes.fromhex(s)`. -/
def pyFromhex (s : String) : Option Bytes := fromhexPairs s.toList

/-- `(RNS.Reticulum.TRUNCATED_HASHLENGTH // 8) * 2` (`rnsh.py:584`), the
required length of a destination hash in hexadecimal characters.  The constant
`TRUNCATED_HASHLENGTH` lives in the external RNS library, so the bit length is
a parameter here. -/
def dest_len (truncated_hashlength : Nat) : Nat := truncated_hashlength / 8 * 2

/-- The destination validation prologue of `_execute` (`rnsh.py:584-592`),
which runs before any path lookup, link establishment or link use: a
wrong-length destination raises `RemoteExecutionError` with the
"hexadecimal characters" message; otherwise `bytes.fromhex` failure raises
`RemoteExecutionError("Invalid destination entered. Check your input.")`;
otherwise the decoded hash is used. -/
def execute_validate (truncated_hashlength : Nat) (destination : String) : Except String Bytes :=
  let dl := dest_len truncated_hashlength
  if destination.length ≠ dl then
    Except.error ("Allowed destination length is invalid, must be " ++ toString dl ++
      " hexadecimal characters (" ++ toString (dl / 2) ++ " bytes).")
  else
    match pyFromhex destination with
    | some bs => Except.ok bs
    | none => Except.error "Invalid destination entered. Check your input."

/-- The message of the `RemoteExecutionError` raised by the validation
prologue (empty when no error is raised). -/
def execute_error_msg (hl : Nat) (dest : String) : String :=
  match execute_validate hl dest with
  | Except.error m => m
  | Except.ok _ => ""

/-- The `except RemoteExecutionError` arm of `_initiate` (`rnsh.py:761-763`)
applied to the validation prologue: when `_execute` raises, `_initiate` prints
`e.msg` and returns `255`; `none` means validation passed and the client
proceeds. -/
def initiate_validate (hl : Nat) (dest : String) : Option (String × Int) :=
  match execute_validate hl dest with
  | Except.error m => some (m, 255)
  | Except.ok _ => none

/-- What the response-processing tail of `_execute` (`rnsh.py:667-696`) does
with one decoded response: which bytes are written to the local stdout, whether
`_new_data` is set, and the value returned to `_initiate` (`some rc` makes
`_initiate` return `rc`; `none` lets the client loop iterate). -/
structure ExecStep where
  stdout_written : Option Bytes
  new_data_set : Bool
  result : Option Int
deriving DecidableEq, Repr

/-- The response-processing tail of `_execute` (`rnsh.py:667-696`):
`running = response[0] or True`, `return_code = response[1]`,
`ready_bytes = response[2] or 0`, `stdout = response[3]`; the stdout chunk is
base64-decoded and written locally; `_new_data` is set when `ready_bytes > 0`;
and when `(not running or return_code is not None) and ready_bytes == 0` the
function returns `return_code or 255`. -/
def execute_handle_response (runningF : Option Bool) (retcodeF : Option Int)
    (readyF : Option Int) (stdoutF : Option B64) : ExecStep :=
  let running := pyOrTrue runningF
  let ready := pyOrZero readyF
  { stdout_written := stdoutF.map b64decode
  , new_data_set := decide (ready > 0)
  , result :=
      if (running = false ∨ retcodeF ≠ none) ∧ ready = 0 then some (pyOr255 retcodeF)
      else none }

/-- The exit-code computation of `main` (`rnsh.py:875`):
`return return_code if args_mirror else 0`. -/
def main_return (mirror : Bool) (rc : Int) : Int := if mirror then rc else 0

/-! ## `_split_array_at` (`rnsh.py:770-775`) -/

/-- Python `arr.index(at)`: the index of the first element equal to `at`, or
`none` for the `ValueError` raised when `at` does not occur. -/
def list_index [DecidableEq α] (a : α) : List α → Option Nat
  | [] => none
  | x :: xs => if x = a then some 0 else (list_index a xs).map (· + 1)

/-- `_split_array_at` (`rnsh.py:770-775`): `idx = arr.index(at)`, returning
`(arr[:idx], arr[idx+1:])`, or `(arr, [])` when `index` raises `ValueError`. -/
def split_array_at [DecidableEq α] (arr : List α) (a : α) : List α × List α :=
  match list_index a arr with
  | some idx => (arr.take idx, arr.drop (idx + 1))
  | none => (arr, [])

/-! ## Theorems -/

/-- `list.remove` with a predicate that never matches raises `ValueError`. -/
theorem removeFirst_of_false {α : Type} (l : List α) (p : α → Bool) (hp : ∀ x, p x = false) :
    removeFirst p l = none := by
  induction l with
  | nil => rfl
  | cons x xs ih => simp [removeFirst, hp x, ih]

/-- `clear_tag` never removes anything: the `(tag, ps)` tuples stored in
`_processes` never compare equal to the bare tag that `list.remove` looks for,
and the resulting `ValueError` is swallowed. -/
theorem clear_tag_eq_self {σ : Type} (procs : List (Tag × σ)) (t : Tag) :
    clear_tag procs t = procs := by
  unfold clear_tag
  rw [removeFirst_of_false procs (fun e => entry_matches_tag e t) (fun x => rfl)]

/-- C1: at a response whose decoded fields are `running=false`,
`return_code=0`, `ready_bytes=0` — a child that exited with code 0 — the
client code `return return_code or 255` (`rnsh.py:694`) evaluates to 255, not
to the child's exit code 0, and `main` run with `-m` then exits 255. -/
theorem execute_zero_return_code_yields_255 :
    (execute_handle_response (some false) (some 0) (some 0) none).result = some 255 ∧
    pyOr255 (some 0) = 255 ∧
    main_return true 255 = 255 ∧
    (255 : Int) ≠ 0 := by decide

/-- C2: evaluating the registry code at the failing input.  Two successive
`put_for_tag` calls with the same tag leave two entries for that tag (the
`clear_tag` inside `put_for_tag` removes nothing), and `get_for_tag` then
returns the stale first entry, not the one just put. -/
theorem put_for_tag_keeps_stale_entry :
    put_for_tag (put_for_tag ([] : List (Tag × PState)) 0 ⟨true, none, [1], none⟩) 0
        ⟨true, none, [2], none⟩ =
      [(0, ⟨true, none, [1], none⟩), (0, ⟨true, none, [2], none⟩)] ∧
    get_for_tag
        (put_for_tag (put_for_tag ([] : List (Tag × PState)) 0 ⟨true, none, [1], none⟩) 0
          ⟨true, none, [2], none⟩) 0 =
      some ⟨true, none, [1], none⟩ ∧
    (⟨true, none, [1], none⟩ : PState) ≠ ⟨true, none, [2], none⟩ := by decide

/-- C3: evaluating the registry code at the failing input.  After the
link-closed handler runs `clear_tag` for a registered link id, the entry is
still present and `get_for_tag` still returns it, because
`_processes.remove(tag)` compares `(tag, ps)` tuples against the bare tag and
never matches. -/
theorem listen_link_closed_leaves_entry :
    listen_link_closed [((0 : Tag), (⟨true, none, [1], none⟩ : PState))] 0 =
      [(0, ⟨true, none, [1], none⟩)] ∧
    get_for_tag (listen_link_closed [((0 : Tag), (⟨true, none, [1], none⟩ : PState))] 0) 0 =
      some ⟨true, none, [1], none⟩ := by decide

/-- C4: for every session state, request and MDU, `process_request` with the
listener's read limit `link.MDU * 3 // 2` returns as its stdout chunk exactly
the first `read_size` bytes of the buffer — a prefix of the buffer of length
at most `read_size` — removes exactly that prefix from the buffer, and reports
as `ready_bytes` the number of bytes remaining in the buffer immediately after
the removal.  Chunk removal and the `ready_bytes` sample happen under the
session lock (`rnsh.py:359-361`), which the sequential model renders as a
single atomic step. -/
theorem process_request_read_contract (ps : PState) (data : Request) (mdu : Nat) (now : Rat) :
    ((ps.process_request data (listen_read_size mdu) now).resp.stdout.map b64decode).getD [] =
      ps.data_buffer.take (listen_read_size mdu) ∧
    ps.data_buffer.take (listen_read_size mdu) <+: ps.data_buffer ∧
    (ps.data_buffer.take (listen_read_size mdu)).length ≤ listen_read_size mdu ∧
    (ps.process_request data (listen_read_size mdu) now).state.data_buffer =
      ps.data_buffer.drop (listen_read_size mdu) ∧
    (ps.process_request data (listen_read_size mdu) now).resp.ready =
      (ps.process_request data (listen_read_size mdu) now).state.data_buffer.length := by
  refine ⟨?_, ⟨ps.data_buffer.drop (listen_read_size mdu),
      List.take_append_drop (listen_read_size mdu) ps.data_buffer⟩,
    List.length_take_le (listen_read_size mdu) ps.data_buffer, ?_, ?_⟩
  · simp only [PState.process_request, PState.read]
    by_cases h : 0 < listen_read_size mdu ∧ 0 < ps.data_buffer.length
    · simp [h, b64decode, b64encode]
    · have hnil : ps.data_buffer.take (listen_read_size mdu) = [] := by
        rcases not_and_or.mp h with h1 | h2
        · simp [Nat.eq_zero_of_not_pos h1]
        · have hb : ps.data_buffer = [] := by
            cases hd : ps.data_buffer with
            | nil => rfl
            | cons a l => rw [hd] at h2; simp at h2
          simp [hb]
      simp [h, hnil]
  · simp [PState.process_request, PState.read]
  · simp [PState.process_request, PState.read]

/-- C6 counterexample: a request whose link id matches no link of the
destination makes the handler raise (`rnsh.py:516-517`, outside the `try`
block); the exception propagates instead of a default response being
returned. -/
theorem listen_request_no_link_raises :
    listen_request false (Except.error ()) (some true) 0 = Except.error () := rfl

/-- C6 (amended): for every request whose link is found, when an exception is
raised inside the processing `try` block the handler terminates the child
exactly when a session was resolved and its child is running, and returns the
default response: running=false, return_code null, ready_bytes 0, stdout null,
and the current time as timestamp. -/
theorem listen_request_exception_returns_default (e : Unit) (session_running : Option Bool)
    (now : Rat) :
    listen_request true (Except.error e) session_running now =
      Except.ok ({ running := false, retcode := none, ready := 0, stdout := none, tmstamp := now },
        decide (session_running = some true)) := rfl

/-- C7: the window-size update is never applied to the child — neither before
the stdin write nor at all.  `_update_winsz` (`rnsh.py:298-305`) indexes the
cached five-element slice `data[2:7]` with `TERMSTATE_IDX_ROWS..VPIX = 2..5`,
so the lookup `ts[TERMSTATE_IDX_VPIX] = ts[5]` always raises `IndexError`,
which the `except` swallows: for every terminal state the update produces no
effect, and a request carrying a changed terminal state together with
non-empty stdin reaches the child with only the stdin write. -/
theorem process_request_never_applies_winsize :
    (∀ ts : TermState, update_winsz ts = []) ∧
    ((⟨true, none, [], none⟩ : PState).process_request
        ⟨some ⟨[7]⟩, none, none, some 24, some 80, none, none⟩ 5 0).effects =
      [Effect.write [7]] :=
  ⟨fun _ => rfl, by decide⟩

/-- A chain sends at most `try_limit - tries` further packets over any run of
timer attempts. -/
theorem run_chain_le (env : List Attempt) : ∀ c : Chain, run_chain c env ≤ c.try_limit - c.tries := by
  induction env with
  | nil => intro c; simp [run_chain]
  | cons a rest ih =>
    intro c
    unfold run_chain
    by_cases h : c.try_limit ≤ c.tries
    · simp [h]
    · cases a with
      | complete => simp [h]
      | send =>
        simp only [h, if_false]
        have hr := ih { c with tries := c.tries + 1 }
        simp only at hr
        omega

/-- C5: (i) a `_subproc_data_ready` call while a chain is pending for the link
id leaves the timer unchanged (coalescing); (ii) otherwise it begins exactly
one new chain for that link id with `try_limit = 15` and the rtt-scaled wait
delay; (iii) that delay is `max(link.rtt * 5, 1)` seconds; (iv) a chain with
try limit 15 sends at most 15 notification packets over any run of timer
attempts; (v) the operation preserves "at most one chain per link id". -/
theorem subproc_data_ready_contract (rt : RetryThread) (t : Tag) (rtt : Option Rat) :
    (rt.has_tag t = true → subproc_data_ready rt t rtt = rt) ∧
    (rt.has_tag t = false →
      subproc_data_ready rt t rtt = rt.begin t 15 (wait_delay_of rtt)) ∧
    (∀ r : Rat, wait_delay_of (some r) = max (r * 5) 1) ∧
    (∀ env : List Attempt, ∀ w : Rat, run_chain ⟨15, w, 0⟩ env ≤ 15) ∧
    ((rt.entries.map Prod.fst).Nodup →
      ((subproc_data_ready rt t rtt).entries.map Prod.fst).Nodup) := by
  refine ⟨fun h => by simp [subproc_data_ready, h], fun h => by simp [subproc_data_ready, h],
    fun r => rfl, fun env w => run_chain_le env ⟨15, w, 0⟩, fun hnd => ?_⟩
  by_cases h : rt.has_tag t
  · simpa [subproc_data_ready, h] using hnd
  · unfold subproc_data_ready
    rw [if_neg h]
    simp only [RetryThread.begin, List.map_cons, List.nodup_cons]
    refine ⟨fun hmem => ?_, hnd⟩
    rcases List.mem_map.mp hmem with ⟨e, he, hfst⟩
    have hf : rt.has_tag t = false := by
      cases hb : rt.has_tag t
      · rfl
      · exact absurd hb h
    unfold RetryThread.has_tag at hf
    have := List.any_eq_false.mp hf e he
    simp [hfst] at this

/-- C5 witness: on an empty timer, a data-ready call for link id 0 with no
measured rtt begins a chain with try limit 15 and wait delay
`max(1, 1) = 1`. -/
theorem subproc_data_ready_contract_witness :
    RetryThread.has_tag ⟨[]⟩ 0 = false ∧
    subproc_data_ready ⟨[]⟩ 0 none = RetryThread.begin ⟨[]⟩ 0 15 (wait_delay_of none) :=
  ⟨rfl, (subproc_data_ready_contract ⟨[]⟩ 0 none).2.1 rfl⟩

/-- C8 counterexample: a 32-character destination (the right length for the
standard `TRUNCATED_HASHLENGTH = 128`) that is not valid hexadecimal — it ends
in two spaces — passes validation without raising, because `bytes.fromhex`
skips ASCII whitespace: the prologue decodes it to 15 bytes and proceeds. -/
theorem execute_validate_accepts_nonhex :
    "00112233445566778899aabbccddee  ".toList.all isHexDigit = false ∧
    "00112233445566778899aabbccddee  ".length = dest_len 128 ∧
    execute_validate 128 "00112233445566778899aabbccddee  " =
      Except.ok [0, 17, 34, 51, 68, 85, 102, 119, 136, 153, 170, 187, 204, 221, 238] :=
  ⟨by decide, by decide, by rfl⟩

/-- C8 (amended): for every hash length and destination string, if the string's
length differs from `(TRUNCATED_HASHLENGTH // 8) * 2` or `bytes.fromhex` cannot
decode it, the validation prologue of `_execute` raises a remote-execution
error — before any link is used — and `_initiate` catches it, prints its
message and returns 255; in the wrong-length case the message is the
"Allowed destination length is invalid, must be N hexadecimal characters
(M bytes)." text, which contains "hexadecimal characters". -/
theorem execute_validate_rejects (hl : Nat) (dest : String)
    (h : dest.length ≠ dest_len hl ∨ pyFromhex dest = none) :
    execute_validate hl dest = Except.error (execute_error_msg hl dest) ∧
    initiate_validate hl dest = some (execute_error_msg hl dest, 255) ∧
    (dest.length ≠ dest_len hl →
      execute_error_msg hl dest =
        "Allowed destination length is invalid, must be " ++ toString (dest_len hl) ++
          " hexadecimal characters (" ++ toString (dest_len hl / 2) ++ " bytes).") := by
  by_cases hlen : dest.length = dest_len hl
  · have hf : pyFromhex dest = none := by
      rcases h with h | h
      · exact absurd hlen h
      · exact h
    refine ⟨?_, ?_, fun hc => absurd hlen hc⟩ <;>
      simp [execute_validate, execute_error_msg, initiate_validate, hlen, hf]
  · refine ⟨?_, ?_, fun _ => ?_⟩ <;>
      simp [execute_validate, execute_error_msg, initiate_validate, hlen]

/-- C8 witness: the wrong-length destination `"abcd"` from scenario S6, with
the standard 128-bit truncated hash length. -/
theorem execute_validate_rejects_witness :
    ("abcd".length ≠ dest_len 128 ∨ pyFromhex "abcd" = none) ∧
    (execute_validate 128 "abcd" = Except.error (execute_error_msg 128 "abcd") ∧
      initiate_validate 128 "abcd" = some (execute_error_msg 128 "abcd", 255) ∧
      ("abcd".length ≠ dest_len 128 →
        execute_error_msg 128 "abcd" =
          "Allowed destination length is invalid, must be " ++ toString (dest_len 128) ++
            " hexadecimal characters (" ++ toString (dest_len 128 / 2) ++ " bytes).")) :=
  ⟨Or.inl (by decide), execute_validate_rejects 128 "abcd" (Or.inl (by decide))⟩

/-- C9 counterexample: a payload that is not valid UTF-8 makes
`message.decode("utf-8")` (`rnsh.py:563`) raise `UnicodeDecodeError` out of
the handler: the packet is not logged by the handler (and does not set the
event), refuting the claim's "any other packet is logged". -/
theorem client_packet_handler_invalid_raises :
    client_packet_handler (some PyBytes.invalid) true = HandlerOutcome.raised ∧
    HandlerOutcome.raised ≠ HandlerOutcome.logged ∧
    HandlerOutcome.raised ≠ HandlerOutcome.set_event := by decide

/-- C9 (amended): (i) the retry engine's notification packets carry exactly
the UTF-8 encoding of `DATA_AVAIL_MSG`, the string `"data available"`;
(ii) with the wake-event object in place (as it is for the whole client loop),
the client packet handler sets the event if and only if the received message
decodes to exactly that string; (iii) a packet that decodes to any other
string is logged and does not set the event; (iv) a `None` message is logged;
(v) a payload that is not valid UTF-8 raises out of the handler instead of
being logged; (vi) no packet whose message does not decode to that string sets
the event. -/
theorem notification_payload_handler_contract :
    notification_packet_payload = utf8_encode DATA_AVAIL_MSG ∧
    utf8_decode notification_packet_payload = some "data available" ∧
    (∀ message : Option PyBytes,
      (client_packet_handler message true = HandlerOutcome.set_event ↔
        message.bind utf8_decode = some DATA_AVAIL_MSG)) ∧
    (∀ s : String, s ≠ DATA_AVAIL_MSG →
      client_packet_handler (some (utf8_encode s)) true = HandlerOutcome.logged) ∧
    client_packet_handler none true = HandlerOutcome.logged ∧
    client_packet_handler (some PyBytes.invalid) true = HandlerOutcome.raised ∧
    (∀ message : Option PyBytes, message.bind utf8_decode ≠ some DATA_AVAIL_MSG →
      client_packet_handler message true ≠ HandlerOutcome.set_event) := by
  refine ⟨rfl, rfl, fun message => ?_, fun s hs => ?_, rfl, rfl, fun message hm => ?_⟩
  · cases message with
    | none => simp [client_packet_handler]
    | some b =>
      cases b with
      | utf8 s =>
        by_cases hs : s = DATA_AVAIL_MSG <;>
          simp [client_packet_handler, utf8_decode, hs]
      | invalid => simp [client_packet_handler, utf8_decode]
  · simp [client_packet_handler, utf8_encode, utf8_decode, hs]
  · cases message with
    | none => simp [client_packet_handler]
    | some b =>
      cases b with
      | utf8 s =>
        have hs : s ≠ DATA_AVAIL_MSG := by
          intro hc
          exact hm (by simp [utf8_decode, hc])
        simp [client_packet_handler, utf8_decode, hs]
      | invalid => simp [client_packet_handler, utf8_decode]

/-- C9 witness: a packet decoding to `"x"` is logged and does not set the
event. -/
theorem notification_payload_handler_contract_witness :
    client_packet_handler (some (utf8_encode "x")) true = HandlerOutcome.logged :=
  notification_payload_handler_contract.2.2.2.1 "x" (by decide)

/-- `arr.index(a)` returns `none` exactly when `a` does not occur in `arr`. -/
theorem list_index_eq_none {α : Type} [DecidableEq α] (a : α) (l : List α) :
    list_index a l = none ↔ a ∉ l := by
  induction l with
  | nil => simp [list_index]
  | cons x xs ih =>
    by_cases hx : x = a
    · simp [list_index, hx]
    · simp [list_index, hx, ih]
      exact fun _ h => hx h.symm

/-- C10: `_split_array_at` splits at the first occurrence: when `a` occurs in
`arr` the two returned parts reassemble to `arr` around one copy of `a` and
the first part is free of `a`; when `a` does not occur, the result is
`(arr, [])`. -/
theorem split_array_at_spec {α : Type} [DecidableEq α] (arr : List α) (a : α) :
    (a ∈ arr →
      (split_array_at arr a).1 ++ a :: (split_array_at arr a).2 = arr ∧
        a ∉ (split_array_at arr a).1) ∧
    (a ∉ arr → split_array_at arr a = (arr, [])) := by
  induction arr with
  | nil => exact ⟨fun h => absurd h (List.not_mem_nil a), fun _ => rfl⟩
  | cons x xs ih =>
    by_cases hx : x = a
    · refine ⟨fun _ => ?_, fun hmem => absurd (hx ▸ List.mem_cons_self x xs) hmem⟩
      simp [split_array_at, list_index, hx]
    · cases hidx : list_index a xs with
      | none =>
        have hnot : a ∉ xs := (list_index_eq_none a xs).mp hidx
        have hncons : a ∉ x :: xs := by
          simp [List.mem_cons, hnot]
          exact fun h => hx h.symm
        refine ⟨fun hmem => absurd hmem hncons, fun _ => ?_⟩
        simp [split_array_at, list_index, hx, hidx]
      | some i =>
        have hmem : a ∈ xs := by
          by_contra hno
          rw [(list_index_eq_none a xs).mpr hno] at hidx
          exact Option.noConfusion hidx
        have hxs : split_array_at xs a = (xs.take i, xs.drop (i + 1)) := by
          simp [split_array_at, hidx]
        have h1 := (ih.1 hmem).1
        have h2 := (ih.1 hmem).2
        rw [hxs] at h1 h2
        refine ⟨fun _ => ?_, fun hno => absurd (List.mem_cons_of_mem x hmem) hno⟩
        constructor
        · simp only [split_array_at, list_index, hx, if_false, hidx, Option.map_some',
            List.take_succ_cons, List.drop_succ_cons, List.cons_append]
          exact congrArg (x :: ·) h1
        · simp only [split_array_at, list_index, hx, if_false, hidx, Option.map_some',
            List.take_succ_cons, List.mem_cons, not_or]
          exact ⟨fun h : a = x => hx h.symm, h2⟩

/-- C10 witness: splitting `[1, 2, 3]` at its member `2`. -/
theorem split_array_at_spec_witness :
    (2 : Nat) ∈ [1, 2, 3] ∧
    ((split_array_at [1, 2, 3] (2 : Nat)).1 ++ 2 :: (split_array_at [1, 2, 3] (2 : Nat)).2 =
        [1, 2, 3] ∧
      (2 : Nat) ∉ (split_array_at [1, 2, 3] (2 : Nat)).1) :=
  ⟨by decide, (split_array_at_spec [1, 2, 3] 2).1 (by decide)⟩

end Rnsh
